import Mathlib

/-!
Verification of the docket-scraper `fetch_charges.py`.

The script reads rows (case numbers) from a Baserow table, fetches the
court docket page of each case, extracts a charge description and a
same-day calendar event from the HTML, and patches the row.  We embed the
pure logic shallowly: a parsed HTML document is reduced to the two
container sections the extractors read (lists of rows of stripped cell
texts) plus the page's visible text; the run loop is a fold producing a
trace of observable effects (HTTP get, file write, PATCH, sleep) and the
three counters updated/skipped/failed.
-/

namespace FetchCharges

/-- Python-style substring test on character lists. -/
def listContains : List Char → List Char → Bool
  | [], sub => sub.isEmpty
  | s@(_ :: rest), sub => sub.isPrefixOf s || listContains rest sub

/-- Membership test of a substring, mirroring the Python `in` operator. -/
def strContains (s sub : String) : Bool :=
  listContains s.data sub.data

/-- Lower-casing of a string, mirroring Python str.lower on ASCII. -/
def lowerStr (s : String) : String :=
  ⟨s.data.map Char.toLower⟩

/-- Upper-casing of a string, mirroring Python str.upper on ASCII. -/
def upperStr (s : String) : String :=
  ⟨s.data.map Char.toUpper⟩

/-- Python truthiness of an optional string: None and the empty string are falsy. -/
def pyFalsy : Option String → Bool
  | none => true
  | some s => s.isEmpty

/-- Parsed docket page, reduced to what the scraper reads: the cell texts
(row by row, already stripped) of the tblDocket12 charges section and of
the tblForms4 calendar section when those divs are present, and the
whole-page visible text that the error sniffer scans. -/
structure HtmlDoc where
  docketSection : Option (List (List String))
  formsSection : Option (List (List String))
  pageText : String
deriving Repr, DecidableEq

/-- Inner loop of extract_charge_with_priority over the divs of one row:
walks the cells in order carrying first_charge; a cell whose text contains
the marker makes the next cell a candidate; a candidate upper-casing to
contain MURDER is returned at once (inl), otherwise the updated
first_charge survives the row (inr). -/
def scanDivs : List String → Option String → Sum String (Option String)
  | [], fc => .inr fc
  | t :: rest, fc =>
    if t.isEmpty then scanDivs rest fc
    else if strContains t "Description" && !rest.isEmpty then
      let description := rest.headD ""
      let fc2 := if pyFalsy fc then some description else fc
      if strContains (upperStr description) "MURDER" then .inl description
      else scanDivs rest fc2
    else scanDivs rest fc

/-- Outer loop of extract_charge_with_priority over the rows of the
charges section. -/
def chargeScan : List (List String) → Option String → Sum String (Option String)
  | [], fc => .inr fc
  | row :: rows, fc =>
    match scanDivs row fc with
    | .inl d => .inl d
    | .inr fc2 => chargeScan rows fc2

/-- Embedding of extract_charge_with_priority: None when the tblDocket12
section is absent; otherwise the MURDER-priority scan, falling back to the
remembered first_charge. -/
def extract_charge_with_priority (doc : HtmlDoc) : Option String :=
  match doc.docketSection with
  | none => none
  | some rows =>
    match chargeScan rows none with
    | .inl d => some d
    | .inr fc => fc

/-- Zero-padding of the year to four digits, as strftime %Y does. -/
def pad4 (y : Nat) : String :=
  if y < 10 then "000" ++ toString y
  else if y < 100 then "00" ++ toString y
  else if y < 1000 then "0" ++ toString y
  else toString y

/-- Replacement of every (non-overlapping, left-to-right) occurrence of
"/0" by "/", the .replace call of extract_today_event. -/
def replaceSlashZero : List Char → List Char
  | [] => []
  | [c] => [c]
  | a :: b :: rest =>
    if a = '/' ∧ b = '0' then '/' :: replaceSlashZero rest
    else a :: replaceSlashZero (b :: rest)

/-- Embedding of the today string computed in extract_today_event:
strftime "%-m/%-d/%Y" (month and day unpadded, year padded to 4) followed
by .replace of every "/0" with "/". -/
def today_str (m d y : Nat) : String :=
  ⟨replaceSlashZero (toString m ++ "/" ++ toString d ++ "/" ++ pad4 y).data⟩

/-- Loop body of extract_today_event over the calendar rows: first row
with at least 6 cells whose cell 1 equals the today string yields its
cell 5. -/
def eventScan (todayStr : String) : List (List String) → Option String
  | [] => none
  | cols :: rows =>
    if cols.length ≥ 6 && cols.getD 1 "" == todayStr then some (cols.getD 5 "")
    else eventScan todayStr rows

/-- Embedding of extract_today_event: the ambient local date
datetime.now() is passed explicitly as (m, d, y); None when the tblForms4
section is absent. -/
def extract_today_event (m d y : Nat) (doc : HtmlDoc) : Option String :=
  match doc.formsSection with
  | none => none
  | some rows => eventScan (today_str m d y) rows

/-- The fixed denylist scanned by page_has_error_message. -/
def known_fail_phrases : List String :=
  ["server is busy", "could not be found", "error has occurred",
   "unavailable", "temporarily unavailable", "try again later"]

/-- Embedding of page_has_error_message: lower-case the page's visible
text and test the fixed phrases by substring. -/
def page_has_error_message (pageText : String) : Bool :=
  let text := lowerStr pageText
  known_fail_phrases.any (fun phrase => strContains text phrase)

/-- Whitespace stripping from both ends, mirroring Python str.strip(). -/
def stripStr (s : String) : String :=
  ⟨((s.data.dropWhile Char.isWhitespace).reverse.dropWhile Char.isWhitespace).reverse⟩

/-- Embedding of str(case_number or "").strip(): a missing or falsy cell
becomes the empty string, then whitespace is stripped. -/
def normalizeCase (c : Option String) : String :=
  stripStr (match c with | none => "" | some s => s)

/-- One input row of the Baserow table: its id and its raw Case # cell. -/
structure Row where
  id : Nat
  caseField : Option String
deriving Repr, DecidableEq

/-- Fixed docket URL prefix the case number is appended to. -/
def BASE_URL : String :=
  "https://www.superiorcourt.maricopa.gov/docket/CriminalCourtCases/caseInfo.asp?caseNumber="

/-- Outcome of one HTTP attempt against the docket site, indexed by
whether certificate verification was on: a response (status, raw body,
parsed document), a transport-level TLS error, or another transport
error. -/
inductive AttemptResult where
  | success (status : Nat) (body : String) (doc : HtmlDoc)
  | tlsError
  | otherError
deriving Repr, DecidableEq

/-- Embedding of the docket GET of process_cases: exactly one
http.get(full_url) on the shared session, with certificate verification
on.  Any requests.RequestException — TLS errors included, SSLError being
a RequestException subclass — lands in the row's except handler, so the
fetch yields no response.  The network is an oracle from the verify flag
to the attempt outcome; the code only ever consults the verified attempt
(the insecure-request warning suppression kept in the configuration is
dead code: no verify=False request is made anywhere in the program). -/
def fetchDocket (oracle : Bool → AttemptResult) : Option (Nat × String × HtmlDoc) :=
  match oracle true with
  | .success status body doc => some (status, body, doc)
  | .tlsError => none
  | .otherError => none

/-- Verify flags of the attempts fetchDocket performs: always the single
verified attempt, whatever its outcome. -/
def fetchAttempts (_ : Bool → AttemptResult) : List Bool :=
  [true]

/-- Observable side effects of a run, in order: a docket GET for a case
number, a diagnostic file write, a Baserow PATCH, a sleep. -/
inductive Event where
  | get (url : String)
  | writeFile (name : String) (content : String)
  | patch (rowId : Nat) (fields : List (String × String))
  | sleep (n : Nat)
deriving Repr, DecidableEq

/-- The three counters accumulated by process_cases. -/
structure Counters where
  updated : Nat
  skipped : Nat
  failed : Nat
deriving Repr, DecidableEq

/-- Pointwise addition of counters. -/
def Counters.add (a b : Counters) : Counters :=
  ⟨a.updated + b.updated, a.skipped + b.skipped, a.failed + b.failed⟩

/-- Embedding of update_row: PATCH the fields to the row, returning early
with no network call when the mapping is empty. -/
def update_row (rowId : Nat) (fields : List (String × String)) : List Event :=
  if fields.isEmpty then [] else [.patch rowId fields]

/-- The fields_to_update mapping built in process_cases: key Crime when
the extracted charge is truthy, key Case Number Links when the extracted
today event is truthy. -/
def rowFields (m d y : Nat) (doc : HtmlDoc) : List (String × String) :=
  let charge := extract_charge_with_priority doc
  let todayEvent := extract_today_event m d y doc
  (if !pyFalsy charge then [("Crime", charge.getD "")] else []) ++
  (if !pyFalsy todayEvent then [("Case Number Links", todayEvent.getD "")] else [])

/-- One iteration of the process_cases loop on a row, given the network
oracle for that row: the emitted events and the deltas to the three
counters.  A row with an empty (stripped) case number is passed over
before any request.  Otherwise the docket page is fetched, then: a
transport failure counts failed; a non-200 status counts skipped; a
denylisted phrase counts skipped and dumps the body to
error_page_<case>.html; otherwise the extracted fields are patched when
any is present (updated) and the row is skipped when none is.  The
trailing time.sleep(4) is the last statement of the loop body, so it runs
only for rows whose iteration reaches it — updated, skipped for lack of
fields, or failed in the except handler; the non-200 and error-page
branches leave through continue and never sleep. -/
def processRow (m d y : Nat) (r : Row) (oracle : Bool → AttemptResult) :
    List Event × Counters :=
  let case := normalizeCase r.caseField
  if case.isEmpty then ([], ⟨0, 0, 0⟩)
  else
    let url := BASE_URL ++ case
    match fetchDocket oracle with
    | none => ([.get url, .sleep 4], ⟨0, 0, 1⟩)
    | some (status, body, doc) =>
      if status ≠ 200 then ([.get url], ⟨0, 1, 0⟩)
      else if page_has_error_message doc.pageText then
        ([.get url, .writeFile ("error_page_" ++ case ++ ".html") body], ⟨0, 1, 0⟩)
      else
        let fields := rowFields m d y doc
        if !fields.isEmpty then
          ([.get url] ++ update_row r.id fields ++ [.sleep 4], ⟨1, 0, 0⟩)
        else
          ([.get url, .sleep 4], ⟨0, 1, 0⟩)

/-- Embedding of the process_cases loop: rows are processed in order, one
row finishing (including its sleep) before the next starts; events
concatenate and counter deltas accumulate. -/
def process_cases (m d y : Nat) : List (Row × (Bool → AttemptResult)) →
    List Event × Counters
  | [] => ([], ⟨0, 0, 0⟩)
  | (r, oracle) :: rest =>
    let step := processRow m d y r oracle
    let tail := process_cases m d y rest
    (step.1 ++ tail.1, step.2.add tail.2)

/-- The final summary line printed by process_cases. -/
def summaryLine (c : Counters) : String :=
  "Done. Updated=" ++ toString c.updated ++ ", Skipped=" ++ toString c.skipped ++
    ", Failed=" ++ toString c.failed

/-- The summary a run reports: the summary line of its final counters. -/
def runSummary (m d y : Nat) (rows : List (Row × (Bool → AttemptResult))) : String :=
  summaryLine (process_cases m d y rows).2

/-- Candidate charge descriptions of one docket row, in order: the text
of the cell following each non-empty cell containing Description. -/
def rowCandidates : List String → List String
  | [] => []
  | t :: rest =>
    if t.isEmpty then rowCandidates rest
    else if strContains t "Description" && !rest.isEmpty then
      rest.headD "" :: rowCandidates rest
    else rowCandidates rest

/-- All candidate charge descriptions of the charges section, in document
order. -/
def candidates (rows : List (List String)) : List String :=
  (rows.map rowCandidates).flatten

/-- A candidate whose upper-cased text contains MURDER. -/
def isMurder (d : String) : Bool :=
  strContains (upperStr d) "MURDER"

/-- The first_charge value after a run of candidates has been folded in:
each candidate overwrites first_charge only while first_charge is falsy
(None or empty). -/
def updFc (fc : Option String) (ds : List String) : Option String :=
  ds.foldl (fun fc d => if pyFalsy fc then some d else fc) fc

/-- Step of the request-spacing scanner over a trace.  The state records
whether a docket request has happened with no 4-second sleep yet (none
means the spacing discipline was violated): a new get is only legal while
no request is pending, a sleep of 4 clears the pending request, and other
effects leave it untouched. -/
def spaceStep : Option Bool → Event → Option Bool
  | none, _ => none
  | some pending, .get _ => if pending then none else some true
  | some pending, .sleep n => if n = 4 then some false else some pending
  | some pending, .writeFile _ _ => some pending
  | some pending, .patch _ _ => some pending

/-- Scan of a whole trace by spaceStep: ending in some false means every
docket request was followed by a 4-second sleep before the next one. -/
def spaceScan (s : Option Bool) (tr : List Event) : Option Bool :=
  tr.foldl spaceStep s

end FetchCharges

namespace FetchCharges

lemma scanDivs_spec (divs : List String) : ∀ fc, scanDivs divs fc =
    match (rowCandidates divs).find? isMurder with
    | some d => Sum.inl d
    | none => Sum.inr (updFc fc (rowCandidates divs)) := by
  induction divs with
  | nil => intro fc; simp [scanDivs, rowCandidates, updFc]
  | cons t rest ih =>
    intro fc
    by_cases h1 : t.isEmpty
    · simp [scanDivs, rowCandidates, h1, ih]
    · by_cases h2 : (strContains t "Description" && !rest.isEmpty) = true
      · by_cases h3 : isMurder (rest.headD "") = true
        · have hrc : rowCandidates (t :: rest) = rest.headD "" :: rowCandidates rest := by
            simp [rowCandidates, h1, h2]
          rw [hrc, List.find?_cons_of_pos _ h3]
          have h3n : strContains (upperStr (rest.head?.getD "")) "MURDER" = true := by
            simpa [isMurder] using h3
          simp [scanDivs, h1, h2, h3n]
        · simp [scanDivs, rowCandidates, h1, h2, isMurder] at h3 ⊢
          simp [h3, ih, updFc, isMurder]
      · simp [scanDivs, rowCandidates, h1, h2, ih]

lemma chargeScan_spec (rows : List (List String)) : ∀ fc, chargeScan rows fc =
    match (candidates rows).find? isMurder with
    | some d => Sum.inl d
    | none => Sum.inr (updFc fc (candidates rows)) := by
  induction rows with
  | nil => intro fc; simp [chargeScan, candidates, updFc]
  | cons row rows ih =>
    intro fc
    have hcand : candidates (row :: rows) = rowCandidates row ++ candidates rows := by
      simp [candidates]
    cases hfind : (rowCandidates row).find? isMurder with
    | some d =>
      simp [chargeScan, scanDivs_spec row fc, hfind, hcand, List.find?_append]
    | none =>
      simp [chargeScan, scanDivs_spec row fc, hfind, hcand, List.find?_append, ih,
        updFc, List.foldl_append]

lemma updFc_cons (fc : Option String) (d : String) (ds : List String) :
    updFc fc (d :: ds) = updFc (if pyFalsy fc then some d else fc) ds := rfl

lemma updFc_some_nonempty (s : String) (h : s.isEmpty = false) :
    ∀ ds, updFc (some s) ds = some s := by
  intro ds
  induction ds with
  | nil => rfl
  | cons d ds ih =>
    rw [updFc_cons]
    simpa [pyFalsy, h] using ih

lemma updFc_some_empty :
    ∀ ds, updFc (some "") ds = some ((ds.filter (fun d => !d.isEmpty)).headD "") := by
  intro ds
  induction ds with
  | nil => rfl
  | cons d ds ih =>
    by_cases h : d.isEmpty = true
    · have hd : d = "" := (String.isEmpty_iff d).mp h
      subst hd
      exact ih
    · have h2 : d.isEmpty = false := by simpa using h
      calc updFc (some "") (d :: ds) = updFc (some d) ds := by
            rw [updFc_cons]; simp [pyFalsy, String.isEmpty_iff]
        _ = some d := updFc_some_nonempty d h2 ds
        _ = some (((d :: ds).filter fun x => !x.isEmpty).headD "") := by
            rw [List.filter_cons]
            simp [h2]

lemma updFc_none (ds : List String) (h : ds ≠ []) :
    updFc none ds = some ((ds.filter (fun d => !d.isEmpty)).headD "") := by
  cases ds with
  | nil => cases h rfl
  | cons d ds =>
    by_cases hd : d.isEmpty = true
    · have hd2 : d = "" := (String.isEmpty_iff d).mp hd
      subst hd2
      exact updFc_some_empty ds
    · have h2 : d.isEmpty = false := by simpa using hd
      calc updFc none (d :: ds) = updFc (some d) ds := by
            rw [updFc_cons]; simp [pyFalsy]
        _ = some d := updFc_some_nonempty d h2 ds
        _ = some (((d :: ds).filter fun x => !x.isEmpty).headD "") := by
            rw [List.filter_cons]
            simp [h2]

/-- C1: if the charges section holds a Description-tagged candidate whose
upper-cased text contains MURDER, the extractor returns the first such
candidate in document order, whatever its position among the other
candidates. -/
theorem murder_priority (doc : HtmlDoc) (rows : List (List String))
    (h1 : doc.docketSection = some rows)
    (h2 : (candidates rows).any isMurder = true) :
    extract_charge_with_priority doc = (candidates rows).find? isMurder ∧
    ∃ d, (candidates rows).find? isMurder = some d ∧ isMurder d = true := by
  have hsome : ((candidates rows).find? isMurder).isSome :=
    List.find?_isSome.mpr (List.any_eq_true.mp h2)
  obtain ⟨d, hd⟩ := Option.isSome_iff_exists.mp hsome
  refine ⟨?_, d, hd, List.find?_some hd⟩
  simp [extract_charge_with_priority, h1, chargeScan_spec, hd]

/-- Witness for C1: the spec scenario where Assault is listed before
Murder 1st Degree and the murder charge still wins. -/
theorem murder_priority_witness :
    extract_charge_with_priority
        ⟨some [["Description", "Assault"], ["Description", "Murder 1st Degree"]], none, ""⟩
      = some "Murder 1st Degree" := by
  have h := murder_priority
    ⟨some [["Description", "Assault"], ["Description", "Murder 1st Degree"]], none, ""⟩
    [["Description", "Assault"], ["Description", "Murder 1st Degree"]] rfl (by decide)
  rw [h.1]; decide

/-- Counterexample to C3 as stated: with candidate texts being the empty
string then Assault and no MURDER anywhere, the extractor does not return
the first Description-tagged candidate (the empty string) but the later
non-empty one. -/
theorem first_charge_fallback_cex :
    (candidates [["Description", "", "Description", "Assault"]]).head? = some "" ∧
    ((candidates [["Description", "", "Description", "Assault"]]).all fun d => !isMurder d)
        = true ∧
    extract_charge_with_priority
        ⟨some [["Description", "", "Description", "Assault"]], none, ""⟩
      ≠ (candidates [["Description", "", "Description", "Assault"]]).head? := by
  decide

/-- C3 amended: with candidates present and none containing MURDER, the
extractor returns the first candidate whose text is non-empty, or the
empty string when every candidate is empty (first_charge is only ever
replaced while falsy). -/
theorem first_charge_fallback (doc : HtmlDoc) (rows : List (List String))
    (h1 : doc.docketSection = some rows)
    (h2 : candidates rows ≠ [])
    (h3 : ((candidates rows).all fun d => !isMurder d) = true) :
    extract_charge_with_priority doc
      = some (((candidates rows).filter (fun d => !d.isEmpty)).headD "") := by
  have hnone : (candidates rows).find? isMurder = none := by
    refine List.find?_eq_none.mpr fun x hx => ?_
    have := List.all_eq_true.mp h3 x hx
    simpa using this
  simp [extract_charge_with_priority, h1, chargeScan_spec, hnone, updFc_none _ h2]

/-- Witness for C3's amended claim at a concrete document. -/
theorem first_charge_fallback_witness :
    extract_charge_with_priority
        ⟨some [["Description", "", "Description", "Assault"]], none, ""⟩ = some "Assault" := by
  have h := first_charge_fallback
    ⟨some [["Description", "", "Description", "Assault"]], none, ""⟩
    [["Description", "", "Description", "Assault"]] rfl (by decide) (by decide)
  rw [h]; decide

lemma eventScan_cond (cols : List String) (todayStr : String) :
    (cols.length ≥ 6 && cols.getD 1 "" == todayStr) = true ↔
      6 ≤ cols.length ∧ cols.getD 1 "" = todayStr := by
  simp [Bool.and_eq_true, decide_eq_true_eq, beq_iff_eq, ge_iff_le]

lemma eventScan_eq_none (todayStr : String) (rows : List (List String))
    (h : ∀ cols ∈ rows, ¬(6 ≤ cols.length ∧ cols.getD 1 "" = todayStr)) :
    eventScan todayStr rows = none := by
  induction rows with
  | nil => rfl
  | cons cols rows ih =>
    have hc : (cols.length ≥ 6 && cols.getD 1 "" == todayStr) = false := by
      rw [← Bool.not_eq_true, eventScan_cond]
      exact h cols (List.mem_cons_self cols rows)
    simp only [eventScan, hc, Bool.false_eq_true, if_false]
    exact ih fun cols hm => h cols (List.mem_cons_of_mem _ hm)

lemma eventScan_first_match (todayStr : String) (row : List String)
    (post : List (List String)) (h6 : 6 ≤ row.length)
    (h1 : row.getD 1 "" = todayStr) :
    ∀ pre, (∀ cols ∈ pre, ¬(6 ≤ cols.length ∧ cols.getD 1 "" = todayStr)) →
      eventScan todayStr (pre ++ row :: post) = some (row.getD 5 "") := by
  intro pre
  induction pre with
  | nil =>
    intro _
    have hc : (row.length ≥ 6 && row.getD 1 "" == todayStr) = true :=
      (eventScan_cond row todayStr).mpr ⟨h6, h1⟩
    simp only [List.nil_append, eventScan]
    rw [if_pos hc]
  | cons p pre ih =>
    intro hpre
    have hc : (p.length ≥ 6 && p.getD 1 "" == todayStr) = false := by
      rw [← Bool.not_eq_true, eventScan_cond]
      exact hpre p (List.mem_cons_self p pre)
    simp only [List.cons_append, eventScan, hc, Bool.false_eq_true, if_false]
    exact ih fun cols hm => hpre cols (List.mem_cons_of_mem _ hm)

/-- C4: with the calendar container present, the event extractor returns
the 6th cell of the first row having at least 6 cells whose 2nd cell
equals the formatted today string; rows that mismatch produce nothing and
with no matching row the extractor returns none. -/
theorem today_event_first_match (m d y : Nat) (doc : HtmlDoc) (rows : List (List String))
    (h : doc.formsSection = some rows) :
    ((∀ cols ∈ rows, ¬(6 ≤ cols.length ∧ cols.getD 1 "" = today_str m d y)) →
       extract_today_event m d y doc = none) ∧
    (∀ pre row post, rows = pre ++ row :: post →
       (∀ cols ∈ pre, ¬(6 ≤ cols.length ∧ cols.getD 1 "" = today_str m d y)) →
       6 ≤ row.length → row.getD 1 "" = today_str m d y →
       extract_today_event m d y doc = some (row.getD 5 "")) := by
  constructor
  · intro hnone
    simp only [extract_today_event, h]
    exact eventScan_eq_none _ rows hnone
  · intro pre row post hsplit hpre h6 h1
    simp only [extract_today_event, h, hsplit]
    exact eventScan_first_match _ row post h6 h1 pre hpre

/-- Witness for C4: the spec scenario dated 9/5/2025 returns the 6th
cell, Hearing at 9am. -/
theorem today_event_first_match_witness :
    extract_today_event 9 5 2025
        ⟨none, some [["x", "9/5/2025", "y", "z", "w", "Hearing at 9am"]], ""⟩
      = some "Hearing at 9am" := by
  have h := (today_event_first_match 9 5 2025
      ⟨none, some [["x", "9/5/2025", "y", "z", "w", "Hearing at 9am"]], ""⟩
      [["x", "9/5/2025", "y", "z", "w", "Hearing at 9am"]] rfl).2
    [] ["x", "9/5/2025", "y", "z", "w", "Hearing at 9am"] [] rfl
    (by intro cols hm; cases hm) (by decide) (by decide)
  simpa using h

/-- C7: when the expected container is absent each extractor returns no
value: a missing tblDocket12 makes the charge extractor return none and a
missing tblForms4 makes the event extractor return none. -/
theorem missing_container_none (doc : HtmlDoc) (m d y : Nat) :
    (doc.docketSection = none → extract_charge_with_priority doc = none) ∧
    (doc.formsSection = none → extract_today_event m d y doc = none) := by
  constructor
  · intro h; simp [extract_charge_with_priority, h]
  · intro h; simp [extract_today_event, h]

/-- Witness for C7 on a document with neither container. -/
theorem missing_container_none_witness :
    extract_charge_with_priority ⟨none, none, "page"⟩ = none ∧
    extract_today_event 9 5 2025 ⟨none, none, "page"⟩ = none :=
  ⟨(missing_container_none ⟨none, none, "page"⟩ 9 5 2025).1 rfl,
   (missing_container_none ⟨none, none, "page"⟩ 9 5 2025).2 rfl⟩

lemma processRow_skipped_empty_case (m d y : Nat) (r : Row) (oracle : Bool → AttemptResult)
    (hcase : (normalizeCase r.caseField).isEmpty = true) :
    processRow m d y r oracle = ([], ⟨0, 0, 0⟩) := by
  simp [processRow, hcase]

lemma processRow_fetch_failed (m d y : Nat) (r : Row) (oracle : Bool → AttemptResult)
    (hcase : (normalizeCase r.caseField).isEmpty = false)
    (hf : fetchDocket oracle = none) :
    processRow m d y r oracle
      = ([.get (BASE_URL ++ normalizeCase r.caseField), .sleep 4], ⟨0, 0, 1⟩) := by
  simp [processRow, hcase, hf]

lemma processRow_non200 (m d y : Nat) (r : Row) (oracle : Bool → AttemptResult)
    (status : Nat) (body : String) (doc : HtmlDoc)
    (hcase : (normalizeCase r.caseField).isEmpty = false)
    (hf : fetchDocket oracle = some (status, body, doc)) (hs : status ≠ 200) :
    processRow m d y r oracle
      = ([.get (BASE_URL ++ normalizeCase r.caseField)], ⟨0, 1, 0⟩) := by
  simp [processRow, hcase, hf, hs]

lemma processRow_errpage (m d y : Nat) (r : Row) (oracle : Bool → AttemptResult)
    (body : String) (doc : HtmlDoc)
    (hcase : (normalizeCase r.caseField).isEmpty = false)
    (hf : fetchDocket oracle = some (200, body, doc))
    (he : page_has_error_message doc.pageText = true) :
    processRow m d y r oracle
      = ([.get (BASE_URL ++ normalizeCase r.caseField),
          .writeFile ("error_page_" ++ normalizeCase r.caseField ++ ".html") body],
         ⟨0, 1, 0⟩) := by
  simp [processRow, hcase, hf, he]

lemma processRow_updated (m d y : Nat) (r : Row) (oracle : Bool → AttemptResult)
    (body : String) (doc : HtmlDoc)
    (hcase : (normalizeCase r.caseField).isEmpty = false)
    (hf : fetchDocket oracle = some (200, body, doc))
    (he : page_has_error_message doc.pageText = false)
    (hfld : (rowFields m d y doc).isEmpty = false) :
    processRow m d y r oracle
      = ([.get (BASE_URL ++ normalizeCase r.caseField),
          .patch r.id (rowFields m d y doc), .sleep 4], ⟨1, 0, 0⟩) := by
  simp [processRow, hcase, hf, he, hfld, update_row]

lemma processRow_no_fields (m d y : Nat) (r : Row) (oracle : Bool → AttemptResult)
    (body : String) (doc : HtmlDoc)
    (hcase : (normalizeCase r.caseField).isEmpty = false)
    (hf : fetchDocket oracle = some (200, body, doc))
    (he : page_has_error_message doc.pageText = false)
    (hfld : (rowFields m d y doc).isEmpty = true) :
    processRow m d y r oracle
      = ([.get (BASE_URL ++ normalizeCase r.caseField), .sleep 4], ⟨0, 1, 0⟩) := by
  simp [processRow, hcase, hf, he, hfld]

lemma Counters.zero_add (c : Counters) : Counters.add ⟨0, 0, 0⟩ c = c := by
  cases c; simp [Counters.add]

lemma Counters.add_assoc (a b c : Counters) :
    (a.add b).add c = a.add (b.add c) := by
  cases a; cases b; cases c; simp [Counters.add, Nat.add_assoc]

lemma process_cases_cons (m d y : Nat) (r : Row) (oracle : Bool → AttemptResult)
    (rest : List (Row × (Bool → AttemptResult))) :
    process_cases m d y ((r, oracle) :: rest)
      = ((processRow m d y r oracle).1 ++ (process_cases m d y rest).1,
         (processRow m d y r oracle).2.add (process_cases m d y rest).2) := rfl

lemma process_cases_append (m d y : Nat) (l1 l2 : List (Row × (Bool → AttemptResult))) :
    process_cases m d y (l1 ++ l2)
      = ((process_cases m d y l1).1 ++ (process_cases m d y l2).1,
         (process_cases m d y l1).2.add (process_cases m d y l2).2) := by
  induction l1 with
  | nil => simp [process_cases, Counters.zero_add]
  | cons p l1 ih =>
    obtain ⟨r, o⟩ := p
    simp [process_cases_cons, ih, Counters.add_assoc]

lemma rowFields_isEmpty (m d y : Nat) (doc : HtmlDoc) :
    (rowFields m d y doc).isEmpty
      = (pyFalsy (extract_charge_with_priority doc)
          && pyFalsy (extract_today_event m d y doc)) := by
  cases hc : pyFalsy (extract_charge_with_priority doc) <;>
    cases he : pyFalsy (extract_today_event m d y doc) <;>
      simp [rowFields, hc, he]

/-- C5: for a fetched (HTTP 200) row with no error phrase, a PATCH event
occurs exactly when the extracted charge or event is truthy; the payload
has a Crime key exactly when the charge is truthy and a Case Number Links
key exactly when the event is truthy; and update_row on an empty mapping
issues no network event at all. -/
theorem update_iff_field (m d y : Nat) (r : Row) (oracle : Bool → AttemptResult)
    (body : String) (doc : HtmlDoc)
    (hcase : (normalizeCase r.caseField).isEmpty = false)
    (hfetch : fetchDocket oracle = some (200, body, doc))
    (herr : page_has_error_message doc.pageText = false) :
    ((∃ rid fs, Event.patch rid fs ∈ (processRow m d y r oracle).1) ↔
       (!pyFalsy (extract_charge_with_priority doc)
         || !pyFalsy (extract_today_event m d y doc)) = true) ∧
    (("Crime" ∈ (rowFields m d y doc).map Prod.fst) ↔
       !pyFalsy (extract_charge_with_priority doc) = true) ∧
    (("Case Number Links" ∈ (rowFields m d y doc).map Prod.fst) ↔
       !pyFalsy (extract_today_event m d y doc) = true) ∧
    (∀ rid, update_row rid [] = []) := by
  refine ⟨?_, ?_, ?_, fun rid => rfl⟩
  · cases hc : pyFalsy (extract_charge_with_priority doc) <;>
      cases he : pyFalsy (extract_today_event m d y doc)
    · have hfld : (rowFields m d y doc).isEmpty = false := by
        rw [rowFields_isEmpty, hc, he]; rfl
      rw [processRow_updated m d y r oracle body doc hcase hfetch herr hfld]
      simp
    · have hfld : (rowFields m d y doc).isEmpty = false := by
        rw [rowFields_isEmpty, hc, he]; rfl
      rw [processRow_updated m d y r oracle body doc hcase hfetch herr hfld]
      simp
    · have hfld : (rowFields m d y doc).isEmpty = false := by
        rw [rowFields_isEmpty, hc, he]; rfl
      rw [processRow_updated m d y r oracle body doc hcase hfetch herr hfld]
      simp
    · have hfld : (rowFields m d y doc).isEmpty = true := by
        rw [rowFields_isEmpty, hc, he]; rfl
      rw [processRow_no_fields m d y r oracle body doc hcase hfetch herr hfld]
      simp
  · cases hc : pyFalsy (extract_charge_with_priority doc) <;>
      cases he : pyFalsy (extract_today_event m d y doc) <;>
        simp [rowFields, hc, he]
  · cases hc : pyFalsy (extract_charge_with_priority doc) <;>
      cases he : pyFalsy (extract_today_event m d y doc) <;>
        simp [rowFields, hc, he]

/-- Witness for C5: a row whose page yields the charge Assault is
patched. -/
theorem update_iff_field_witness :
    ∃ rid fs, Event.patch rid fs ∈
      (processRow 9 5 2025 ⟨7, some "CR1"⟩
        (fun _ => .success 200 "body" ⟨some [["Description", "Assault"]], none, "ok"⟩)).1 :=
  ((update_iff_field 9 5 2025 ⟨7, some "CR1"⟩
      (fun _ => .success 200 "body" ⟨some [["Description", "Assault"]], none, "ok"⟩)
      "body" ⟨some [["Description", "Assault"]], none, "ok"⟩
      (by decide) rfl (by decide)).1).mpr (by decide)

/-- C6: an HTTP 200 response whose page text contains a denylisted phrase
makes the row skipped, dumps the full body to error_page_(case).html, and
issues no PATCH. -/
theorem errpage_skip_and_dump (m d y : Nat) (r : Row) (oracle : Bool → AttemptResult)
    (body : String) (doc : HtmlDoc)
    (hcase : (normalizeCase r.caseField).isEmpty = false)
    (hfetch : fetchDocket oracle = some (200, body, doc))
    (herr : (known_fail_phrases.any fun p => strContains (lowerStr doc.pageText) p) = true) :
    processRow m d y r oracle
      = ([.get (BASE_URL ++ normalizeCase r.caseField),
          .writeFile ("error_page_" ++ normalizeCase r.caseField ++ ".html") body],
         ⟨0, 1, 0⟩) ∧
    (∀ rid fs, Event.patch rid fs ∉ (processRow m d y r oracle).1) := by
  have he : page_has_error_message doc.pageText = true := herr
  have h := processRow_errpage m d y r oracle body doc hcase hfetch he
  refine ⟨h, fun rid fs => ?_⟩
  rw [h]
  simp

/-- Witness for C6 on the server-is-busy scenario from the spec. -/
theorem errpage_skip_and_dump_witness :
    processRow 9 5 2025 ⟨7, some "CR1"⟩
        (fun _ => .success 200 "<html>The server is busy, please try again later</html>"
          ⟨none, none, "The server is busy, please try again later"⟩)
      = ([.get (BASE_URL ++ "CR1"),
          .writeFile "error_page_CR1.html"
            "<html>The server is busy, please try again later</html>"],
         ⟨0, 1, 0⟩) :=
  (errpage_skip_and_dump 9 5 2025 ⟨7, some "CR1"⟩
      (fun _ => .success 200 "<html>The server is busy, please try again later</html>"
        ⟨none, none, "The server is busy, please try again later"⟩)
      "<html>The server is busy, please try again later</html>"
      ⟨none, none, "The server is busy, please try again later"⟩
      (by decide) rfl (by decide)).1

/-- C8: a non-200 status makes the row skipped with no retry (a single
verified attempt), no file write, no PATCH, and the run goes on through
the surrounding rows. -/
theorem non200_skip (m d y : Nat) (r : Row) (oracle : Bool → AttemptResult)
    (status : Nat) (body : String) (doc : HtmlDoc)
    (hcase : (normalizeCase r.caseField).isEmpty = false)
    (hatt : oracle true = .success status body doc)
    (hs : status ≠ 200) :
    fetchAttempts oracle = [true] ∧
    processRow m d y r oracle
      = ([.get (BASE_URL ++ normalizeCase r.caseField)], ⟨0, 1, 0⟩) ∧
    (∀ pre post, process_cases m d y (pre ++ (r, oracle) :: post)
      = ((process_cases m d y pre).1 ++ (processRow m d y r oracle).1
           ++ (process_cases m d y post).1,
         ((process_cases m d y pre).2.add (processRow m d y r oracle).2).add
           (process_cases m d y post).2)) := by
  have hf : fetchDocket oracle = some (status, body, doc) := by
    simp [fetchDocket, hatt]
  refine ⟨rfl, processRow_non200 m d y r oracle status body doc hcase hf hs, ?_⟩
  · intro pre post
    rw [process_cases_append m d y pre ((r, oracle) :: post), process_cases_cons]
    simp [Counters.add_assoc]

/-- Witness for C8 on the HTTP 503 scenario from the spec. -/
theorem non200_skip_witness :
    fetchAttempts (fun _ => AttemptResult.success 503 "oops" ⟨none, none, "oops"⟩)
        = [true] ∧
    processRow 9 5 2025 ⟨7, some "CR1"⟩
        (fun _ => .success 503 "oops" ⟨none, none, "oops"⟩)
      = ([.get (BASE_URL ++ "CR1")], ⟨0, 1, 0⟩) := by
  have h := non200_skip 9 5 2025 ⟨7, some "CR1"⟩
    (fun _ => .success 503 "oops" ⟨none, none, "oops"⟩) 503 "oops" ⟨none, none, "oops"⟩
    (by decide) rfl (by decide)
  exact ⟨h.1, h.2.1⟩

/-- C2: evaluation of the code at the failing input.  A row whose docket
GET fails with a transport-level TLS error performs exactly one attempt
(the verified one — never the [true, false] attempt pair the retry would
produce), is counted failed, and a following row is still processed: the
code has no verify=False retry, contradicting both the spec and its own
configuration comment about falling back to verify=False. -/
theorem tls_failure_no_retry :
    fetchAttempts (fun _ => AttemptResult.tlsError) = [true] ∧
    fetchAttempts (fun _ => AttemptResult.tlsError) ≠ [true, false] ∧
    fetchDocket (fun _ => AttemptResult.tlsError) = none ∧
    processRow 9 5 2025 ⟨7, some "CR1"⟩ (fun _ => AttemptResult.tlsError)
      = ([.get (BASE_URL ++ "CR1"), .sleep 4], ⟨0, 0, 1⟩) ∧
    (process_cases 9 5 2025
        [(⟨7, some "CR1"⟩, fun _ => AttemptResult.tlsError),
         (⟨8, some "CR2"⟩, fun _ => AttemptResult.otherError)]).2
      = ⟨0, 0, 2⟩ := by
  decide

lemma processRow_sleeps (m d y : Nat) (r : Row) (oracle : Bool → AttemptResult) :
    ∀ n, Event.sleep n ∈ (processRow m d y r oracle).1 → n = 4 := by
  intro n hn
  by_cases hcase : (normalizeCase r.caseField).isEmpty = true
  · rw [processRow_skipped_empty_case m d y r oracle hcase] at hn
    cases hn
  · have hc : (normalizeCase r.caseField).isEmpty = false := by simpa using hcase
    cases hf : fetchDocket oracle with
    | none =>
      rw [processRow_fetch_failed m d y r oracle hc hf] at hn
      simpa using hn
    | some t =>
      obtain ⟨status, body, doc⟩ := t
      by_cases hs : status = 200
      · subst hs
        by_cases he : page_has_error_message doc.pageText = true
        · rw [processRow_errpage m d y r oracle body doc hc hf he] at hn
          simp at hn
        · have he2 : page_has_error_message doc.pageText = false := by simpa using he
          by_cases hfld : (rowFields m d y doc).isEmpty = true
          · rw [processRow_no_fields m d y r oracle body doc hc hf he2 hfld] at hn
            simpa using hn
          · have hfld2 : (rowFields m d y doc).isEmpty = false := by simpa using hfld
            rw [processRow_updated m d y r oracle body doc hc hf he2 hfld2] at hn
            simpa using hn
      · rw [processRow_non200 m d y r oracle status body doc hc hf hs] at hn
        simp at hn

/-- Counterexample to C9 as stated: in a run where case CR1 draws HTTP
503 and case CR2 follows, the trace holds no event at all — in
particular no sleep — between the two docket requests, because the
non-200 branch leaves the loop body through continue before the trailing
time.sleep(4); the spacing scan flags the violation. -/
theorem fixed_delay_cex :
    (process_cases 9 5 2025
        [(⟨1, some "CR1"⟩, fun _ => .success 503 "oops" ⟨none, none, "oops"⟩),
         (⟨2, some "CR2"⟩, fun _ => AttemptResult.otherError)]).1
      = [.get (BASE_URL ++ "CR1"), .get (BASE_URL ++ "CR2"), .sleep 4] ∧
    spaceScan (some false)
        (process_cases 9 5 2025
          [(⟨1, some "CR1"⟩, fun _ => .success 503 "oops" ⟨none, none, "oops"⟩),
           (⟨2, some "CR2"⟩, fun _ => AttemptResult.otherError)]).1
      = none := by
  decide

/-- C9 amended: every processed row's trace opens with its docket
request and any sleep in it is exactly 4 units; the 4-unit delay runs
after a row exactly when its iteration reaches the end of the loop body
— fetch failure, or an HTTP 200 page free of error phrases (updated or
skipped for lack of fields) — while the non-200 and error-page branches
leave through continue, so no delay precedes the next row's request. -/
theorem sleep_after_completed_rows (m d y : Nat) (r : Row)
    (oracle : Bool → AttemptResult)
    (hc : (normalizeCase r.caseField).isEmpty = false) :
    (processRow m d y r oracle).1.head?
        = some (.get (BASE_URL ++ normalizeCase r.caseField)) ∧
    (∀ n, Event.sleep n ∈ (processRow m d y r oracle).1 → n = 4) ∧
    (fetchDocket oracle = none →
       (processRow m d y r oracle).1.getLast? = some (.sleep 4)) ∧
    (∀ body doc, fetchDocket oracle = some (200, body, doc) →
       page_has_error_message doc.pageText = false →
       (processRow m d y r oracle).1.getLast? = some (.sleep 4)) ∧
    (∀ status body doc, fetchDocket oracle = some (status, body, doc) → status ≠ 200 →
       Event.sleep 4 ∉ (processRow m d y r oracle).1) ∧
    (∀ body doc, fetchDocket oracle = some (200, body, doc) →
       page_has_error_message doc.pageText = true →
       Event.sleep 4 ∉ (processRow m d y r oracle).1) := by
  refine ⟨?_, processRow_sleeps m d y r oracle, ?_, ?_, ?_, ?_⟩
  · cases hf : fetchDocket oracle with
    | none => rw [processRow_fetch_failed m d y r oracle hc hf]; rfl
    | some t =>
      obtain ⟨status, body, doc⟩ := t
      by_cases hs : status = 200
      · subst hs
        by_cases he : page_has_error_message doc.pageText = true
        · rw [processRow_errpage m d y r oracle body doc hc hf he]; rfl
        · have he2 : page_has_error_message doc.pageText = false := by simpa using he
          by_cases hfld : (rowFields m d y doc).isEmpty = true
          · rw [processRow_no_fields m d y r oracle body doc hc hf he2 hfld]; rfl
          · have hfld2 : (rowFields m d y doc).isEmpty = false := by simpa using hfld
            rw [processRow_updated m d y r oracle body doc hc hf he2 hfld2]; rfl
      · rw [processRow_non200 m d y r oracle status body doc hc hf hs]; rfl
  · intro hf
    rw [processRow_fetch_failed m d y r oracle hc hf]; rfl
  · intro body doc hf he
    by_cases hfld : (rowFields m d y doc).isEmpty = true
    · rw [processRow_no_fields m d y r oracle body doc hc hf he hfld]; rfl
    · have hfld2 : (rowFields m d y doc).isEmpty = false := by simpa using hfld
      rw [processRow_updated m d y r oracle body doc hc hf he hfld2]; rfl
  · intro status body doc hf hs
    rw [processRow_non200 m d y r oracle status body doc hc hf hs]
    simp
  · intro body doc hf he
    rw [processRow_errpage m d y r oracle body doc hc hf he]
    simp

/-- Witness for C9's amended claim: a failed row ends with the 4-second
sleep, a 503-skipped row sleeps not at all. -/
theorem sleep_after_completed_rows_witness :
    (processRow 9 5 2025 ⟨7, some "CR1"⟩ (fun _ => AttemptResult.otherError)).1.getLast?
        = some (.sleep 4) ∧
    Event.sleep 4 ∉ (processRow 9 5 2025 ⟨8, some "CR2"⟩
        (fun _ => AttemptResult.success 503 "oops" ⟨none, none, "oops"⟩)).1 := by
  refine ⟨(sleep_after_completed_rows 9 5 2025 ⟨7, some "CR1"⟩
      (fun _ => AttemptResult.otherError) (by decide)).2.2.1 rfl, ?_⟩
  exact (sleep_after_completed_rows 9 5 2025 ⟨8, some "CR2"⟩
      (fun _ => AttemptResult.success 503 "oops" ⟨none, none, "oops"⟩)
      (by decide)).2.2.2.2.1 503 "oops" ⟨none, none, "oops"⟩ rfl (by decide)

lemma processRow_delta (m d y : Nat) (r : Row) (oracle : Bool → AttemptResult)
    (hc : (normalizeCase r.caseField).isEmpty = false) :
    (processRow m d y r oracle).2
      ∈ [Counters.mk 1 0 0, Counters.mk 0 1 0, Counters.mk 0 0 1] := by
  cases hf : fetchDocket oracle with
  | none => rw [processRow_fetch_failed m d y r oracle hc hf]; simp
  | some t =>
    obtain ⟨status, body, doc⟩ := t
    by_cases hs : status = 200
    · subst hs
      by_cases he : page_has_error_message doc.pageText = true
      · rw [processRow_errpage m d y r oracle body doc hc hf he]; simp
      · have he2 : page_has_error_message doc.pageText = false := by simpa using he
        by_cases hfld : (rowFields m d y doc).isEmpty = true
        · rw [processRow_no_fields m d y r oracle body doc hc hf he2 hfld]; simp
        · have hfld2 : (rowFields m d y doc).isEmpty = false := by simpa using hfld
          rw [processRow_updated m d y r oracle body doc hc hf he2 hfld2]; simp
    · rw [processRow_non200 m d y r oracle status body doc hc hf hs]; simp

/-- C10: a row with a non-empty stripped case number contributes exactly
one increment to exactly one of the three counters, a row with an empty
case number contributes nothing, the run's counters are the sum of the
per-row contributions, and the final summary renders exactly those
accumulated counts. -/
theorem counters_partition (m d y : Nat)
    (rows : List (Row × (Bool → AttemptResult))) :
    (∀ (r : Row) (oracle : Bool → AttemptResult), (r, oracle) ∈ rows →
       ((normalizeCase r.caseField).isEmpty = false →
          (processRow m d y r oracle).2
            ∈ [Counters.mk 1 0 0, Counters.mk 0 1 0, Counters.mk 0 0 1]) ∧
       ((normalizeCase r.caseField).isEmpty = true →
          (processRow m d y r oracle).2 = ⟨0, 0, 0⟩)) ∧
    (process_cases m d y rows).2
      = (rows.map fun p => (processRow m d y p.1 p.2).2).foldr Counters.add ⟨0, 0, 0⟩ ∧
    runSummary m d y rows
      = summaryLine ((rows.map fun p => (processRow m d y p.1 p.2).2).foldr
          Counters.add ⟨0, 0, 0⟩) := by
  have hsum : (process_cases m d y rows).2
      = (rows.map fun p => (processRow m d y p.1 p.2).2).foldr Counters.add ⟨0, 0, 0⟩ := by
    induction rows with
    | nil => rfl
    | cons p rows ih =>
      obtain ⟨r, o⟩ := p
      rw [process_cases_cons]
      simp only [List.map_cons, List.foldr_cons]
      rw [← ih]
  refine ⟨?_, hsum, ?_⟩
  · intro r oracle _
    exact ⟨processRow_delta m d y r oracle, fun hc => by
      rw [processRow_skipped_empty_case m d y r oracle hc]⟩
  · rw [runSummary, hsum]

/-- Witness for C10: a one-row run whose fetch fails contributes exactly
one failed increment. -/
theorem counters_partition_witness :
    (processRow 9 5 2025 ⟨7, some "CR1"⟩ (fun _ => AttemptResult.otherError)).2
      ∈ [Counters.mk 1 0 0, Counters.mk 0 1 0, Counters.mk 0 0 1] :=
  ((counters_partition 9 5 2025
      [(⟨7, some "CR1"⟩, fun _ => AttemptResult.otherError)]).1
    ⟨7, some "CR1"⟩ (fun _ => AttemptResult.otherError) (List.Mem.head _)).1 (by decide)

end FetchCharges

namespace FetchCharges

example : strContains "abc Description xx" "Description" = true := by decide
example : strContains "abc" "Description" = false := by decide
example : upperStr "Murder 1st Degree" = "MURDER 1ST DEGREE" := by decide
example :
    extract_charge_with_priority
      ⟨some [["Description", "Assault"], ["Description", "Murder 1st Degree"]], none, ""⟩
      = some "Murder 1st Degree" := by decide
example :
    extract_charge_with_priority
      ⟨some [["Description", "", "Description", "Assault"]], none, ""⟩
      = some "Assault" := by decide
example : today_str 9 5 2025 = "9/5/2025" := by decide
example :
    extract_today_event 9 5 2025
      ⟨none, some [["x", "9/5/2025", "y", "z", "w", "Hearing at 9am"]], ""⟩
      = some "Hearing at 9am" := by decide
example : page_has_error_message "The Server is Busy, please try again later" = true := by
  decide
example : page_has_error_message "normal docket content" = false := by decide
example : normalizeCase (some "  CR2024-1   ") = "CR2024-1" := by decide
example : normalizeCase none = "" := by decide
example :
    processRow 9 5 2025 ⟨7, some "CR1"⟩ (fun _ => .success 503 "oops" ⟨none, none, "oops"⟩)
      = ([.get (BASE_URL ++ "CR1")], ⟨0, 1, 0⟩) := by decide
example :
    processRow 9 5 2025 ⟨7, some "CR1"⟩
        (fun _ => .success 200 "<html>The server is busy</html>" ⟨none, none, "The server is busy"⟩)
      = ([.get (BASE_URL ++ "CR1"),
          .writeFile "error_page_CR1.html" "<html>The server is busy</html>"],
         ⟨0, 1, 0⟩) := by decide
example :
    processRow 9 5 2025 ⟨7, some "CR1"⟩
        (fun _ => .success 200 "body" ⟨some [["Description", "Assault"]], none, "ok"⟩)
      = ([.get (BASE_URL ++ "CR1"), .patch 7 [("Crime", "Assault")], .sleep 4],
         ⟨1, 0, 0⟩) := by decide
example :
    processRow 9 5 2025 ⟨7, some "CR1"⟩ (fun _ => .otherError)
      = ([.get (BASE_URL ++ "CR1"), .sleep 4], ⟨0, 0, 1⟩) := by decide
example :
    processRow 9 5 2025 ⟨7, some "CR1"⟩ (fun _ => .tlsError)
      = ([.get (BASE_URL ++ "CR1"), .sleep 4], ⟨0, 0, 1⟩) := by decide
example :
    processRow 9 5 2025 ⟨7, some "CR1"⟩
        (fun _ => .success 200 "body" ⟨some [["nothing"]], none, "ok"⟩)
      = ([.get (BASE_URL ++ "CR1"), .sleep 4], ⟨0, 1, 0⟩) := by decide
example : processRow 9 5 2025 ⟨7, some "   "⟩ (fun _ => .otherError) = ([], ⟨0, 0, 0⟩) := by
  decide
example : summaryLine ⟨2, 1, 0⟩ = "Done. Updated=2, Skipped=1, Failed=0" := by decide

end FetchCharges
